import Mathlib

/-!
# OpenGL-Intro: the single-triangle program of `Main.cpp`

`main` of `src/Main.cpp` is a straight-line sequence of GLFW / OpenGL calls
followed by one `while` loop and a teardown.  It is embedded here as a pure
function from the answers of the external calls (`Env`) to the trace of calls
that `main` issues together with its return value.

* Handles (`GLuint`) and pointers are natural numbers, `0` being `NULL`.
* `int` answers are integers; `!x` is `x = 0`.
* Floating-point source expressions are kept as syntax (`FExpr`) and given a
  meaning in any field with a square-root function.
* The render loop is structurally recursive on a bound on the number of
  close-requested queries; a run that exhausts the bound is still running and
  has no return value.
-/

namespace OpenGLIntro

/-! ## Constants of the headers `glad/glad.h` and `GLFW/glfw3.h` -/

/-- Modelled from the spec: macro GL_FLOAT of `glad/glad.h`, a header that is not among
the sources; the type tag of floating-point vertex components; it expands to an integer
literal of type `int`. The value is that of the published header. -/
def GL_FLOAT : Nat := 0x1406
/-- Modelled from the spec: macro GL_FALSE of `glad/glad.h`, a header that is not among
the sources; the boolean false, here no normalisation of the attribute. The value is
that of the published header. -/
def GL_FALSE : Nat := 0
/-- Modelled from the spec: macro GL_TRIANGLES of `glad/glad.h`, a header that is not
among the sources; the primitive mode in which every 3 vertices are 1 triangle. The
value is that of the published header. -/
def GL_TRIANGLES : Nat := 0x0004
/-- Modelled from the spec: macro GL_DEPTH_BUFFER_BIT of `glad/glad.h`, a header that is
not among the sources; the depth bit of a clear mask. The value is that of the published
header. -/
def GL_DEPTH_BUFFER_BIT : Nat := 0x00000100
/-- Modelled from the spec: macro GL_STENCIL_BUFFER_BIT of `glad/glad.h`, a header that
is not among the sources; the stencil bit of a clear mask. The value is that of the
published header. -/
def GL_STENCIL_BUFFER_BIT : Nat := 0x00000400
/-- Modelled from the spec: macro GL_COLOR_BUFFER_BIT of `glad/glad.h`, a header that is
not among the sources; the colour-target bit of a clear mask. The value is that of the
published header. -/
def GL_COLOR_BUFFER_BIT : Nat := 0x00004000
/-- Modelled from the spec: macro GL_ARRAY_BUFFER of `glad/glad.h`, a header that is not
among the sources; the binding point of vertex storage. The value is that of the
published header. -/
def GL_ARRAY_BUFFER : Nat := 0x8892
/-- Modelled from the spec: macro GL_STATIC_DRAW of `glad/glad.h`, a header that is not
among the sources; the usage of a buffer set once and drawn from many times. The value
is that of the published header. -/
def GL_STATIC_DRAW : Nat := 0x88E4
/-- Modelled from the spec: macro GL_FRAGMENT_SHADER of `glad/glad.h`, a header that is
not among the sources; the fragment stage. The value is that of the published header. -/
def GL_FRAGMENT_SHADER : Nat := 0x8B30
/-- Modelled from the spec: macro GL_VERTEX_SHADER of `glad/glad.h`, a header that is
not among the sources; the vertex stage. The value is that of the published header. -/
def GL_VERTEX_SHADER : Nat := 0x8B31
/-- Modelled from the spec: macro GLFW_CONTEXT_VERSION_MAJOR of `GLFW/glfw3.h`, a header
that is not among the sources; the hint for the major version of the graphics API. The
value is that of the published header. -/
def GLFW_CONTEXT_VERSION_MAJOR : Nat := 0x00022002
/-- Modelled from the spec: macro GLFW_CONTEXT_VERSION_MINOR of `GLFW/glfw3.h`, a header
that is not among the sources; the hint for the minor version of the graphics API. The
value is that of the published header. -/
def GLFW_CONTEXT_VERSION_MINOR : Nat := 0x00022003
/-- Modelled from the spec: macro GLFW_OPENGL_PROFILE of `GLFW/glfw3.h`, a header that
is not among the sources; the hint for the profile of the graphics API. The value is
that of the published header. -/
def GLFW_OPENGL_PROFILE : Nat := 0x00022008
/-- Modelled from the spec: macro GLFW_OPENGL_CORE_PROFILE of `GLFW/glfw3.h`, a header
that is not among the sources; the core profile. The value is that of the published
header. -/
def GLFW_OPENGL_CORE_PROFILE : Nat := 0x00032001

/-- Sizes, in bytes, that `sizeof` yields on the target, taken as parameters:
`sizeofInt` for `int` (the type of the integer literal that the macro
`GL_FLOAT` expands to, so `sizeof(GL_FLOAT)` is `sizeofInt`) and
`sizeofGLfloat` for the type `GLfloat` of `glad/glad.h`, the element type of
`vertices`. -/
structure DataModel where
  sizeofInt : Nat
  sizeofGLfloat : Nat
deriving DecidableEq, Repr

/-- The data model of the desktop targets of GLFW: 4-byte `int`, 4-byte
`GLfloat`. -/
def desktop : DataModel := ⟨4, 4⟩

/-! ## Floating-point source expressions -/

/-- Syntax of the arithmetic expressions that occur as floating-point
arguments and array elements in `Main.cpp`. `lit m p` is the decimal literal
with digits `m` and `p` digits after the point (`0.5f` is `lit 5 1`), `int n`
an integer literal, `cast e` the conversion `float(e)`. -/
inductive FExpr where
  | lit (mantissa places : Nat)
  | int (n : Nat)
  | neg (e : FExpr)
  | mul (a b : FExpr)
  | div (a b : FExpr)
  | sqrt (e : FExpr)
  | cast (e : FExpr)
deriving DecidableEq, Repr

/-- Value of a source expression in a field `α`, given its square root; the
conversion `float(e)` keeps the value. -/
def FExpr.eval {α : Type} [Field α] (sq : α → α) : FExpr → α
  | .lit m p => (m : α) / (10 : α) ^ p
  | .int n => (n : α)
  | .neg e => - e.eval sq
  | .mul a b => a.eval sq * b.eval sq
  | .div a b => a.eval sq / b.eval sq
  | .sqrt e => sq (e.eval sq)
  | .cast e => e.eval sq

/-- The array `GLfloat vertices[]` of `main` (lines 60-65), element by
element. -/
def vertices : List FExpr :=
  [ .neg (.lit 5 1), .div (.mul (.neg (.lit 5 1)) (.cast (.sqrt (.int 3)))) (.int 3), .lit 0 1,
    .lit 5 1, .div (.mul (.neg (.lit 5 1)) (.cast (.sqrt (.int 3)))) (.int 3), .lit 0 1,
    .lit 0 1, .div (.mul (.lit 5 1) (.cast (.sqrt (.int 3)))) (.int 3), .lit 0 1 ]

/-- The three `(x, y, z)` rows of `vertices`. -/
def vertexRows : List (FExpr × FExpr × FExpr) :=
  [ (vertices.getD 0 (.int 0), vertices.getD 1 (.int 0), vertices.getD 2 (.int 0)),
    (vertices.getD 3 (.int 0), vertices.getD 4 (.int 0), vertices.getD 5 (.int 0)),
    (vertices.getD 6 (.int 0), vertices.getD 7 (.int 0), vertices.getD 8 (.int 0)) ]

/-! ## Shader sources -/

/-- The C string `vertexShaderSource` (lines 17-21), up to its first NUL. -/
def vertexShaderSource : String :=
  "#version 330 core\n" ++
  "layout (location = 0) in vec3 aPos;\n" ++
  "void main()\n" ++
  "\tgl_Postion = vec4(aPos.x, aPos.y, aPos.z, 1.0);\n" ++
  "\x7d"

/-- The C string `fragementShaderSource` (lines 24-29), up to its first NUL. -/
def fragementShaderSource : String :=
  "#version 330 core\n" ++
  "out vec4 FragColor;\n" ++
  "void main()\n" ++
  "\x7b\n" ++
  "\tFragColor = vec4(0.8f, 0.3f, 0.02f, 1.0f); \n" ++
  "\x7d\n"

/-! ## External calls and their answers -/

/-- One observable action of `main`: a call of a GLFW / glad / OpenGL function
with the values of its arguments, or a line written to `std::cout`. -/
inductive Call where
  | glfwInit
  | coutLine (s : String)
  | glfwWindowHint (hint value : Nat)
  | glCreateShader (type : Nat)
  | glShaderSource (shader count : Nat) (src : String) (length : Nat)
  | glCompileShader (shader : Nat)
  | glCreateProgram
  | glAttachShader (program shader : Nat)
  | glLinkProgram (program : Nat)
  | glDeleteShader (shader : Nat)
  | glGenVertexArrays (n : Nat)
  | glGenBuffers (n : Nat)
  | glBindVertexArray (array : Nat)
  | glBindBuffer (target buffer : Nat)
  | glBufferData (target size : Nat) (data : List FExpr) (usage : Nat)
  | glVertexAttribPointer (index size type normalized stride pointer : Nat)
  | glEnableVertexAttribArray (index : Nat)
  | glfwCreateWindow (width height : Nat) (title : String) (monitor share : Nat)
  | glfwTerminate
  | glfwMakeContextCurrent (window : Nat)
  | gladLoadGL
  | glViewport (x y width height : Nat)
  | glfwWindowShouldClose (window : Nat)
  | glClearColor (r g b a : FExpr)
  | glClear (mask : Nat)
  | glUseProgram (program : Nat)
  | glDrawArrays (mode first count : Nat)
  | glfwSwapBuffers (window : Nat)
  | glfwPollEvents
  | glDeleteVertexArrays (n : Nat) (arrays : List Nat)
  | glDeleteBuffers (n : Nat) (buffers : List Nat)
  | glDeleteProgram (program : Nat)
  | glfwDestroyWindow (window : Nat)
deriving DecidableEq, Repr

/-- The answers of the external calls whose result `main` reads: the return
value of `glfwInit`, the handles returned by the two `glCreateShader` calls and
by `glCreateProgram`, the names written by `glGenVertexArrays` and
`glGenBuffers`, the pointer returned by `glfwCreateWindow` (`0` is `NULL`), and
the answer of the `k`-th call (from `0`) of `glfwWindowShouldClose`. -/
structure Env where
  glfwInit : Int
  vertexShader : Nat
  fragmentShader : Nat
  shaderProgram : Nat
  VAO : Nat
  VBO : Nat
  iMadeThisWindow : Nat
  shouldClose : Nat → Int

/-! ## The sections of `main`, in source order -/

/-- Lines 42-46: the three window hints. -/
def hintCalls : List Call :=
  [ .glfwWindowHint GLFW_CONTEXT_VERSION_MAJOR 3,
    .glfwWindowHint GLFW_CONTEXT_VERSION_MINOR 3,
    .glfwWindowHint GLFW_OPENGL_PROFILE GLFW_OPENGL_CORE_PROFILE ]

/-- Lines 72-88: creation, source upload and compilation of the two shaders. -/
def compileCalls (E : Env) : List Call :=
  [ .glCreateShader GL_VERTEX_SHADER,
    .glShaderSource E.vertexShader 1 vertexShaderSource 0,
    .glCompileShader E.vertexShader,
    .glCreateShader GL_FRAGMENT_SHADER,
    .glShaderSource E.fragmentShader 1 fragementShaderSource 0,
    .glCompileShader E.fragmentShader ]

/-- Lines 93-97: creation of the program and attachment of both shaders. -/
def attachCalls (E : Env) : List Call :=
  [ .glCreateProgram,
    .glAttachShader E.shaderProgram E.vertexShader,
    .glAttachShader E.shaderProgram E.fragmentShader ]

/-- Lines 100-107: the link and the deletion of the two shader objects. -/
def linkCalls (E : Env) : List Call :=
  [ .glLinkProgram E.shaderProgram,
    .glDeleteShader E.fragmentShader,
    .glDeleteShader E.vertexShader ]

/-- Lines 127-169: vertex array and buffer generation, upload of `vertices`
(`sizeof(vertices)` bytes), layout declaration and unbinding. -/
def bufferCalls (P : DataModel) (E : Env) : List Call :=
  [ .glGenVertexArrays 1,
    .glGenBuffers 1,
    .glBindVertexArray E.VAO,
    .glBindBuffer GL_ARRAY_BUFFER E.VBO,
    .glBufferData GL_ARRAY_BUFFER (vertices.length * P.sizeofGLfloat) vertices GL_STATIC_DRAW,
    .glVertexAttribPointer 0 3 GL_FLOAT GL_FALSE (P.sizeofInt * 3) 0,
    .glEnableVertexAttribArray 0,
    .glBindBuffer GL_ARRAY_BUFFER 0,
    .glBindVertexArray 0 ]

/-- Line 175: the window creation call. -/
def windowCall : Call :=
  .glfwCreateWindow 800 800 "YoutubeOpenGl" 0 0

/-- Lines 184-191: make the context current, load GL, set the viewport. -/
def contextCalls (E : Env) : List Call :=
  [ .glfwMakeContextCurrent E.iMadeThisWindow,
    .gladLoadGL,
    .glViewport 0 0 800 800 ]

/-- Lines 203-221: the body of the render loop. -/
def frameBody (E : Env) : List Call :=
  [ .glClearColor (.lit 7 2) (.lit 13 2) (.lit 17 2) (.lit 10 1),
    .glClear GL_COLOR_BUFFER_BIT,
    .glUseProgram E.shaderProgram,
    .glBindVertexArray E.VAO,
    .glDrawArrays GL_TRIANGLES 0 3,
    .glfwSwapBuffers E.iMadeThisWindow,
    .glfwPollEvents ]

/-- Lines 226-231: the teardown after the loop. -/
def teardownCalls (E : Env) : List Call :=
  [ .glDeleteVertexArrays 1 [E.VAO],
    .glDeleteBuffers 1 [E.VBO],
    .glDeleteProgram E.shaderProgram,
    .glfwDestroyWindow E.iMadeThisWindow,
    .glfwTerminate ]

/-- Lines 199-223: `while (!glfwWindowShouldClose(w)) body`. The first
argument bounds the number of evaluations of the loop condition, the second is
the number of evaluations made so far. The result is the trace and whether the
loop was left. -/
def renderLoop (E : Env) : Nat → Nat → List Call × Bool
  | 0, _ => ([], false)
  | fuel + 1, k =>
    if E.shouldClose k = 0 then
      let r := renderLoop E fuel (k + 1)
      (Call.glfwWindowShouldClose E.iMadeThisWindow :: frameBody E ++ r.1, r.2)
    else
      ([Call.glfwWindowShouldClose E.iMadeThisWindow], true)

/-- Lines 36-181 for a run in which `glfwInit` succeeded: everything from the
start of `main` up to and including the window creation call. -/
def setupCalls (P : DataModel) (E : Env) : List Call :=
  Call.glfwInit :: hintCalls ++ compileCalls E ++ attachCalls E ++ linkCalls E
    ++ bufferCalls P E ++ [windowCall]

/-- The function `main` (lines 32-233): the trace of calls it issues and its
return value, `none` while the render loop is still running after `fuel`
evaluations of its condition. -/
def main (P : DataModel) (E : Env) (fuel : Nat) : List Call × Option Int :=
  if E.glfwInit = 0 then
    ([Call.glfwInit, Call.coutLine "glfw failed to init"], some (-1))
  else if E.iMadeThisWindow = 0 then
    (setupCalls P E ++ [Call.coutLine "Failed to create GLFW window", Call.glfwTerminate],
      some (-1))
  else
    let r := renderLoop E fuel 0
    if r.2 then
      (setupCalls P E ++ contextCalls E ++ r.1 ++ teardownCalls E, some 0)
    else
      (setupCalls P E ++ contextCalls E ++ r.1, none)

/-! ## Vocabulary for statements about traces -/

/-- The trace of `n` complete loop iterations: the condition evaluation that
answered "not requested", then the body. -/
def frames (E : Env) : Nat → List Call
  | 0 => []
  | n + 1 => Call.glfwWindowShouldClose E.iMadeThisWindow :: frameBody E ++ frames E n

/-- The call is an evaluation of the loop condition. -/
def Call.isCloseQuery : Call → Bool
  | .glfwWindowShouldClose _ => true
  | _ => false

/-- The call is a `glClear`. -/
def Call.isClear : Call → Bool
  | .glClear _ => true
  | _ => false

/-- The call is a `glDrawArrays`. -/
def Call.isDraw : Call → Bool
  | .glDrawArrays _ _ _ => true
  | _ => false

/-- The call is a `glfwSwapBuffers`. -/
def Call.isSwap : Call → Bool
  | .glfwSwapBuffers _ => true
  | _ => false

/-- The call is a `glfwPollEvents`. -/
def Call.isPoll : Call → Bool
  | .glfwPollEvents => true
  | _ => false

/-- The call is a `glfwInit`. -/
def Call.isInit : Call → Bool
  | .glfwInit => true
  | _ => false

/-- The call is a `glfwCreateWindow`. -/
def Call.isCreateWindow : Call → Bool
  | .glfwCreateWindow _ _ _ _ _ => true
  | _ => false

/-- The call is a `glfwTerminate`. -/
def Call.isTerminate : Call → Bool
  | .glfwTerminate => true
  | _ => false

/-- The call is a `glBufferData`. -/
def Call.isBufferData : Call → Bool
  | .glBufferData _ _ _ _ => true
  | _ => false

/-- The call takes or creates a shader object: `glCreateShader`,
`glShaderSource`, `glCompileShader`, `glAttachShader`, `glDeleteShader`. -/
def Call.isShaderCall : Call → Bool
  | .glCreateShader _ => true
  | .glShaderSource _ _ _ _ => true
  | .glCompileShader _ => true
  | .glAttachShader _ _ => true
  | .glDeleteShader _ => true
  | _ => false

/-- The call takes or creates a program object. -/
def Call.isProgramCall : Call → Bool
  | .glCreateProgram => true
  | .glAttachShader _ _ => true
  | .glLinkProgram _ => true
  | .glUseProgram _ => true
  | .glDeleteProgram _ => true
  | _ => false

/-- The call is a vertex-array or buffer call. -/
def Call.isBufferCall : Call → Bool
  | .glGenVertexArrays _ => true
  | .glGenBuffers _ => true
  | .glBindVertexArray _ => true
  | .glBindBuffer _ _ => true
  | .glBufferData _ _ _ _ => true
  | .glVertexAttribPointer _ _ _ _ _ _ => true
  | .glEnableVertexAttribArray _ => true
  | .glDeleteVertexArrays _ _ => true
  | .glDeleteBuffers _ _ => true
  | _ => false

/-- The call is an OpenGL call (a `gl*` function loaded by glad), as opposed
to a GLFW call, the loader itself, or output. -/
def Call.isGL : Call → Bool
  | .glfwInit => false
  | .coutLine _ => false
  | .glfwWindowHint _ _ => false
  | .glfwCreateWindow _ _ _ _ _ => false
  | .glfwTerminate => false
  | .glfwMakeContextCurrent _ => false
  | .gladLoadGL => false
  | .glfwWindowShouldClose _ => false
  | .glfwSwapBuffers _ => false
  | .glfwPollEvents => false
  | .glfwDestroyWindow _ => false
  | _ => true

/-- The call is a GLFW call other than `glfwInit`, or any glad / OpenGL call:
everything but `glfwInit` and console output. -/
def Call.isWindowingOrGraphics : Call → Bool
  | .glfwInit => false
  | .coutLine _ => false
  | _ => true

/-- The call is a `glfwMakeContextCurrent`. -/
def Call.isMakeContextCurrent : Call → Bool
  | .glfwMakeContextCurrent _ => true
  | _ => false

/-- The call is a `glViewport`. -/
def Call.isViewport : Call → Bool
  | .glViewport _ _ _ _ => true
  | _ => false

/-- The call is a `glVertexAttribPointer`. -/
def Call.isVertexAttribPointer : Call → Bool
  | .glVertexAttribPointer _ _ _ _ _ _ => true
  | _ => false

/-- The call is a `glCreateProgram`. -/
def Call.isCreateProgram : Call → Bool
  | .glCreateProgram => true
  | _ => false

/-- The call is a `glLinkProgram`. -/
def Call.isLinkProgram : Call → Bool
  | .glLinkProgram _ => true
  | _ => false

/-- The call is a `glUseProgram`. -/
def Call.isUseProgram : Call → Bool
  | .glUseProgram _ => true
  | _ => false

/-- The call is a `glDeleteShader`. -/
def Call.isDeleteShader : Call → Bool
  | .glDeleteShader _ => true
  | _ => false

/-- The call is a `glDeleteProgram`. -/
def Call.isDeleteProgram : Call → Bool
  | .glDeleteProgram _ => true
  | _ => false

/-- The call releases a resource that lives until the end of `main`:
`glDeleteVertexArrays`, `glDeleteBuffers`, `glDeleteProgram`,
`glfwDestroyWindow`, `glfwTerminate`. -/
def Call.isRelease : Call → Bool
  | .glDeleteVertexArrays _ _ => true
  | .glDeleteBuffers _ _ => true
  | .glDeleteProgram _ => true
  | .glfwDestroyWindow _ => true
  | .glfwTerminate => true
  | _ => false

/-- The call belongs to the body of the render loop. -/
def Call.isFrameCall : Call → Bool
  | .glClearColor _ _ _ _ => true
  | .glClear _ => true
  | .glUseProgram _ => true
  | .glDrawArrays _ _ _ => true
  | .glfwSwapBuffers _ => true
  | .glfwPollEvents => true
  | _ => false

/-- An environment in which every call succeeds with distinct handles and the
close request is first answered at query `n`. -/
def closingAt (n : Nat) : Env where
  glfwInit := 1
  vertexShader := 1
  fragmentShader := 2
  shaderProgram := 3
  VAO := 1
  VBO := 1
  iMadeThisWindow := 4096
  shouldClose := fun k => if k < n then 0 else 1

/-- An environment in which `glfwInit` answers `GLFW_FALSE`. -/
def initFailing : Env where
  glfwInit := 0
  vertexShader := 1
  fragmentShader := 2
  shaderProgram := 3
  VAO := 1
  VBO := 1
  iMadeThisWindow := 4096
  shouldClose := fun _ => 1

/-- An environment in which `glfwInit` succeeds and `glfwCreateWindow` answers
`NULL`. -/
def windowFailing : Env where
  glfwInit := 1
  vertexShader := 1
  fragmentShader := 2
  shaderProgram := 3
  VAO := 1
  VBO := 1
  iMadeThisWindow := 0
  shouldClose := fun _ => 1

/-! ## The render loop -/

/-- While the answers are "not requested" the loop keeps running: `fuel`
evaluations of the condition give `fuel` complete iterations and the loop has
not been left. -/
theorem renderLoop_running (E : Env) :
    ∀ (fuel k : Nat), (∀ i, i < fuel → E.shouldClose (k + i) = 0) →
      renderLoop E fuel k = (frames E fuel, false)
  | 0, _, _ => rfl
  | fuel + 1, k, h => by
    have h0 : E.shouldClose k = 0 := by simpa using h 0 (Nat.succ_pos _)
    have ih := renderLoop_running E fuel (k + 1) (fun i hi => by
      have := h (i + 1) (Nat.succ_lt_succ hi)
      rwa [show k + 1 + i = k + (i + 1) by omega])
    simp [renderLoop, h0, ih, frames]

/-- The loop is left at the first "requested" answer: after `n` answers "not
requested" and one "requested", the trace is `n` iterations and one more
evaluation of the condition. -/
theorem renderLoop_close (E : Env) :
    ∀ (n fuel k : Nat), (∀ i, i < n → E.shouldClose (k + i) = 0) →
      E.shouldClose (k + n) ≠ 0 → n < fuel →
      renderLoop E fuel k
        = (frames E n ++ [Call.glfwWindowShouldClose E.iMadeThisWindow], true)
  | _, 0, _, _, _, hf => absurd hf (Nat.not_lt_zero _)
  | 0, fuel + 1, k, _, hc, _ => by
    have hc0 : E.shouldClose k ≠ 0 := by simpa using hc
    simp [renderLoop, hc0, frames]
  | n + 1, fuel + 1, k, h, hc, hf => by
    have h0 : E.shouldClose k = 0 := by simpa using h 0 (Nat.succ_pos _)
    have ih := renderLoop_close E n fuel (k + 1)
      (fun i hi => by
        have := h (i + 1) (Nat.succ_lt_succ hi)
        rwa [show k + 1 + i = k + (i + 1) by omega])
      (by rwa [show k + 1 + n = k + (n + 1) by omega])
      (Nat.lt_of_succ_lt_succ hf)
    simp [renderLoop, h0, ih, frames]

/-- Every run of the loop is a number of complete iterations, followed by one
more evaluation of the condition exactly when the loop was left. -/
theorem renderLoop_shape (E : Env) :
    ∀ (fuel k : Nat), ∃ m, m ≤ fuel ∧
      (renderLoop E fuel k = (frames E m, false) ∨
       renderLoop E fuel k
        = (frames E m ++ [Call.glfwWindowShouldClose E.iMadeThisWindow], true))
  | 0, _ => ⟨0, Nat.le_refl _, Or.inl rfl⟩
  | fuel + 1, k => by
    by_cases h0 : E.shouldClose k = 0
    · obtain ⟨m, hm, h | h⟩ := renderLoop_shape E fuel (k + 1)
      · exact ⟨m + 1, Nat.succ_le_succ hm, Or.inl (by simp [renderLoop, h0, h, frames])⟩
      · exact ⟨m + 1, Nat.succ_le_succ hm, Or.inr (by simp [renderLoop, h0, h, frames])⟩
    · exact ⟨0, Nat.zero_le _, Or.inr (by simp [renderLoop, h0, frames])⟩

/-- A kind of call that is neither the loop condition nor in the loop body
does not occur in any number of iterations. -/
theorem filter_frames_nil (E : Env) (p : Call → Bool)
    (hq : p (Call.glfwWindowShouldClose E.iMadeThisWindow) = false)
    (hb : (frameBody E).filter p = []) :
    ∀ m, (frames E m).filter p = []
  | 0 => rfl
  | m + 1 => by
    simp only [frames, List.filter_cons, hq, List.filter_append, hb,
      filter_frames_nil E p hq hb m]
    simp

/-- The sub-trace of a kind of call that occurs exactly once per iteration, as
`c`, is `m` copies of `c` after `m` iterations. -/
theorem filter_frames_replicate (E : Env) (p : Call → Bool) (c : Call)
    (hq : ((Call.glfwWindowShouldClose E.iMadeThisWindow) :: frameBody E).filter p = [c]) :
    ∀ m, (frames E m).filter p = List.replicate m c
  | 0 => rfl
  | m + 1 => by
    have h : frames E (m + 1)
        = (Call.glfwWindowShouldClose E.iMadeThisWindow :: frameBody E) ++ frames E m := rfl
    rw [h, List.filter_append, hq, filter_frames_replicate E p c hq m]
    rfl

/-! ## The three ways `main` can run -/

/-- A run in which `glfwInit` fails. -/
theorem main_init_failure (P : DataModel) (E : Env) (fuel : Nat) (hInit : E.glfwInit = 0) :
    main P E fuel = ([Call.glfwInit, Call.coutLine "glfw failed to init"], some (-1)) := by
  simp [main, hInit]

/-- A run in which `glfwInit` succeeds and `glfwCreateWindow` returns `NULL`. -/
theorem main_window_failure (P : DataModel) (E : Env) (fuel : Nat)
    (hInit : E.glfwInit ≠ 0) (hWin : E.iMadeThisWindow = 0) :
    main P E fuel
      = (setupCalls P E
          ++ [Call.coutLine "Failed to create GLFW window", Call.glfwTerminate], some (-1)) := by
  simp [main, hInit, hWin]

/-- A run in which setup succeeds, the first `n` answers of the close query are
"not requested" and the next one is "requested". -/
theorem main_success (P : DataModel) (E : Env) (n fuel : Nat)
    (hInit : E.glfwInit ≠ 0) (hWin : E.iMadeThisWindow ≠ 0)
    (hRun : ∀ i, i < n → E.shouldClose i = 0) (hClose : E.shouldClose n ≠ 0)
    (hFuel : n < fuel) :
    main P E fuel
      = (setupCalls P E ++ contextCalls E
          ++ (frames E n ++ [Call.glfwWindowShouldClose E.iMadeThisWindow])
          ++ teardownCalls E, some 0) := by
  have h := renderLoop_close E n fuel 0 (by simpa using hRun) (by simpa using hClose) hFuel
  simp [main, hInit, hWin, h]

/-- A run in which setup succeeds and the first `fuel` answers of the close
query are all "not requested": the loop is still running. -/
theorem main_running (P : DataModel) (E : Env) (fuel : Nat)
    (hInit : E.glfwInit ≠ 0) (hWin : E.iMadeThisWindow ≠ 0)
    (hRun : ∀ i, i < fuel → E.shouldClose i = 0) :
    main P E fuel = (setupCalls P E ++ contextCalls E ++ frames E fuel, none) := by
  have h := renderLoop_running E fuel 0 (by simpa using hRun)
  simp [main, hInit, hWin, h]

/-- Every run in which `glfwInit` succeeds starts with `setupCalls` and goes on
in one of three ways: window failure, a loop still running, a completed run. -/
theorem main_cases (P : DataModel) (E : Env) (fuel : Nat) (hInit : E.glfwInit ≠ 0) :
    main P E fuel
        = (setupCalls P E
            ++ [Call.coutLine "Failed to create GLFW window", Call.glfwTerminate], some (-1)) ∨
    (∃ m, main P E fuel = (setupCalls P E ++ contextCalls E ++ frames E m, none)) ∨
    (∃ m, main P E fuel
        = (setupCalls P E ++ contextCalls E
            ++ (frames E m ++ [Call.glfwWindowShouldClose E.iMadeThisWindow])
            ++ teardownCalls E, some 0)) := by
  by_cases hWin : E.iMadeThisWindow = 0
  · exact Or.inl (main_window_failure P E fuel hInit hWin)
  · obtain ⟨m, _, h | h⟩ := renderLoop_shape E fuel 0
    · exact Or.inr (Or.inl ⟨m, by simp [main, hInit, hWin, h]⟩)
    · exact Or.inr (Or.inr ⟨m, by simp [main, hInit, hWin, h]⟩)

/-- The number of calls of a kind in `m` iterations is `m` times their number
in one iteration. -/
theorem countP_frames (E : Env) (p : Call → Bool) :
    ∀ m, (frames E m).countP p
      = m * (Call.glfwWindowShouldClose E.iMadeThisWindow :: frameBody E).countP p
  | 0 => by simp [frames]
  | m + 1 => by
    have h : frames E (m + 1)
        = (Call.glfwWindowShouldClose E.iMadeThisWindow :: frameBody E) ++ frames E m := rfl
    rw [h, List.countP_append, countP_frames E p m]
    ring

/-! ## The claims -/

/-- C1: in a run whose setup succeeds the render loop is left exactly at the
first close query that answers "requested". If the first `n` answers are "not
requested" and the next one is "requested", every run with a bound above `n`
completes with `n` frame bodies and `n + 1` close queries (`n` swaps, `n` event
polls, `n` times the frame calls of one body). As long as the answers are "not
requested" the loop is still running after that many full iterations. Hence
the run completes if and only if some answer within the bound is "requested".
Each frame body ends in swap then event poll. -/
theorem loop_stops_at_first_close_request (P : DataModel) (E : Env)
    (hInit : E.glfwInit ≠ 0) (hWin : E.iMadeThisWindow ≠ 0) :
    (∀ n, (∀ i, i < n → E.shouldClose i = 0) → E.shouldClose n ≠ 0 →
      ∀ fuel, n < fuel →
        main P E fuel
          = (setupCalls P E ++ contextCalls E
              ++ (frames E n ++ [Call.glfwWindowShouldClose E.iMadeThisWindow])
              ++ teardownCalls E, some 0)
        ∧ (main P E fuel).1.countP Call.isCloseQuery = n + 1
        ∧ (main P E fuel).1.countP Call.isSwap = n
        ∧ (main P E fuel).1.countP Call.isPoll = n
        ∧ (main P E fuel).1.countP Call.isFrameCall
            = n * (frameBody E).countP Call.isFrameCall)
    ∧ (∀ fuel, (∀ i, i < fuel → E.shouldClose i = 0) →
        main P E fuel = (setupCalls P E ++ contextCalls E ++ frames E fuel, none))
    ∧ (∀ fuel, (main P E fuel).2 = some 0 ↔ ∃ k, k < fuel ∧ E.shouldClose k ≠ 0)
    ∧ (∃ body, frameBody E
        = body ++ [Call.glfwSwapBuffers E.iMadeThisWindow, Call.glfwPollEvents]) := by
  have hrun := fun fuel (h : ∀ i, i < fuel → E.shouldClose i = 0) =>
    main_running P E fuel hInit hWin h
  refine ⟨fun n hRun hClose fuel h => ?_, hrun, fun fuel => ?_,
    ⟨[Call.glClearColor (.lit 7 2) (.lit 13 2) (.lit 17 2) (.lit 10 1),
      Call.glClear GL_COLOR_BUFFER_BIT, Call.glUseProgram E.shaderProgram,
      Call.glBindVertexArray E.VAO, Call.glDrawArrays GL_TRIANGLES 0 3], rfl⟩⟩
  · have hdone := main_success P E n fuel hInit hWin hRun hClose h
    refine ⟨hdone, ?_, ?_, ?_, ?_⟩ <;> rw [hdone] <;>
      simp [List.countP_append, countP_frames, setupCalls, hintCalls, compileCalls,
        attachCalls, linkCalls, bufferCalls, windowCall, contextCalls, teardownCalls,
        frameBody, Call.isCloseQuery, Call.isSwap, Call.isPoll, Call.isFrameCall]
  · constructor
    · intro h
      by_contra hno
      have hall : ∀ i, i < fuel → E.shouldClose i = 0 := fun i hi => by
        by_contra hi0
        exact hno ⟨i, hi, hi0⟩
      rw [hrun fuel hall] at h
      simp at h
    · intro hex
      have hex2 : ∃ k, E.shouldClose k ≠ 0 := hex.imp fun _ hk => hk.2
      have hlt : Nat.find hex2 < fuel := by
        obtain ⟨k, hk, hk0⟩ := hex
        exact Nat.lt_of_le_of_lt (Nat.find_min' hex2 hk0) hk
      rw [main_success P E (Nat.find hex2) fuel hInit hWin
        (fun i hi => by simpa using Nat.find_min hex2 hi) (Nat.find_spec hex2) hlt]

/-- Witness of C1: two frames, the close request answered at the third query. -/
theorem loop_stops_at_first_close_request_witness :
    (closingAt 2).glfwInit ≠ 0 ∧ (closingAt 2).iMadeThisWindow ≠ 0
    ∧ (∀ i, i < 2 → (closingAt 2).shouldClose i = 0) ∧ (closingAt 2).shouldClose 2 ≠ 0
    ∧ (main desktop (closingAt 2) 3).1.countP Call.isCloseQuery = 3
    ∧ (main desktop (closingAt 2) 3).1.countP Call.isSwap = 2
    ∧ (main desktop (closingAt 2) 2).2 = none
    ∧ (main desktop (closingAt 2) 3).2 = some 0 :=
  have h := loop_stops_at_first_close_request desktop (closingAt 2) (by decide) (by decide)
  have h3 := h.1 2 (by decide) (by decide) 3 (by decide)
  ⟨by decide, by decide, by decide, by decide, h3.2.1, h3.2.2.1,
    by rw [h.2.1 2 (by decide)], (h.2.2.1 3).2 ⟨2, by decide, by decide⟩⟩

/-- C2: when `glfwInit` reports failure, `main` calls `glfwInit` once, prints
"glfw failed to init", returns -1, and makes no other windowing or graphics
call: the trace is exactly those two actions. -/
theorem init_failure_stops_everything (P : DataModel) (E : Env) (fuel : Nat)
    (hInit : E.glfwInit = 0) :
    main P E fuel = ([Call.glfwInit, Call.coutLine "glfw failed to init"], some (-1))
    ∧ (main P E fuel).1.countP Call.isInit = 1
    ∧ (main P E fuel).1.countP Call.isWindowingOrGraphics = 0
    ∧ (main P E fuel).1.countP Call.isCreateWindow = 0
    ∧ (main P E fuel).1.countP Call.isGL = 0
    ∧ (main P E fuel).1.countP Call.isFrameCall = 0
    ∧ (main P E fuel).2 ≠ some 0 := by
  rw [main_init_failure P E fuel hInit]
  simp [Call.isInit, Call.isWindowingOrGraphics, Call.isCreateWindow, Call.isGL,
    Call.isFrameCall]

/-- Witness of C2: `glfwInit` answers `GLFW_FALSE`. -/
theorem init_failure_stops_everything_witness :
    initFailing.glfwInit = 0
    ∧ main desktop initFailing 5
        = ([Call.glfwInit, Call.coutLine "glfw failed to init"], some (-1)) :=
  ⟨rfl, (init_failure_stops_everything desktop initFailing 5 rfl).1⟩

/-- C3: when `glfwInit` succeeds and `glfwCreateWindow` returns `NULL`, `main`
returns -1 and its trace ends with the single window creation call, the line
"Failed to create GLFW window" and the single `glfwTerminate`; no context is
made current, no viewport is set, and there is no close query and no frame
call. -/
theorem window_failure_releases_subsystem (P : DataModel) (E : Env) (fuel : Nat)
    (hInit : E.glfwInit ≠ 0) (hWin : E.iMadeThisWindow = 0) :
    (main P E fuel).2 = some (-1)
    ∧ (∃ pre, (main P E fuel).1
          = pre ++ [Call.glfwCreateWindow 800 800 "YoutubeOpenGl" 0 0,
                    Call.coutLine "Failed to create GLFW window", Call.glfwTerminate]
        ∧ pre.countP Call.isCreateWindow = 0 ∧ pre.countP Call.isTerminate = 0)
    ∧ (main P E fuel).1.countP Call.isCreateWindow = 1
    ∧ (main P E fuel).1.countP Call.isTerminate = 1
    ∧ (main P E fuel).1.countP Call.isMakeContextCurrent = 0
    ∧ (main P E fuel).1.countP Call.isViewport = 0
    ∧ (main P E fuel).1.countP Call.isCloseQuery = 0
    ∧ (main P E fuel).1.countP Call.isFrameCall = 0 := by
  rw [main_window_failure P E fuel hInit hWin]
  refine ⟨rfl, ⟨Call.glfwInit :: hintCalls ++ compileCalls E ++ attachCalls E ++ linkCalls E
      ++ bufferCalls P E, ?_, ?_, ?_⟩, ?_, ?_, ?_, ?_, ?_, ?_⟩ <;>
    simp [List.countP_append, setupCalls, hintCalls, compileCalls, attachCalls,
      linkCalls, bufferCalls, windowCall, Call.isCreateWindow, Call.isTerminate,
      Call.isMakeContextCurrent, Call.isViewport, Call.isCloseQuery, Call.isFrameCall]

/-- Witness of C3: `glfwCreateWindow` answers `NULL`. -/
theorem window_failure_releases_subsystem_witness :
    windowFailing.glfwInit ≠ 0
    ∧ windowFailing.iMadeThisWindow = 0
    ∧ (main desktop windowFailing 5).2 = some (-1)
    ∧ (main desktop windowFailing 5).1.countP Call.isTerminate = 1 :=
  have h := window_failure_releases_subsystem desktop windowFailing 5
    (by decide) rfl
  ⟨by decide, rfl, h.1, h.2.2.2.1⟩

/-- C4, evaluated on a run in which every call succeeds and the close request
is answered at the first query: the run completes with status 0, yet the
first OpenGL call (`glCreateShader`, position 4) is issued right after the
window hints, 21 OpenGL calls (all shader, program, vertex-array and buffer
setup) precede `glfwCreateWindow` (position 25), and the context is made
current only at position 26 and loaded at position 27. -/
theorem graphics_calls_precede_window_creation :
    (main desktop (closingAt 0) 1).2 = some 0
    ∧ (main desktop (closingAt 0) 1).1.take 5
        = [Call.glfwInit,
           Call.glfwWindowHint GLFW_CONTEXT_VERSION_MAJOR 3,
           Call.glfwWindowHint GLFW_CONTEXT_VERSION_MINOR 3,
           Call.glfwWindowHint GLFW_OPENGL_PROFILE GLFW_OPENGL_CORE_PROFILE,
           Call.glCreateShader GL_VERTEX_SHADER]
    ∧ (main desktop (closingAt 0) 1).1.findIdx Call.isGL = 4
    ∧ (main desktop (closingAt 0) 1).1.findIdx Call.isCreateWindow = 25
    ∧ (main desktop (closingAt 0) 1).1.findIdx Call.isMakeContextCurrent = 26
    ∧ ((main desktop (closingAt 0) 1).1.drop 26).take 2
        = [Call.glfwMakeContextCurrent 4096, Call.gladLoadGL]
    ∧ ((main desktop (closingAt 0) 1).1.take 25).countP Call.isGL = 21
    ∧ ((main desktop (closingAt 0) 1).1.take 25).countP Call.isShaderCall = 10
    ∧ ((main desktop (closingAt 0) 1).1.take 25).countP Call.isBufferCall = 9 := by
  decide

/-- C5: in every run whose setup succeeds and that renders `n` frames (`n = 0`
included), what follows the last close query is exactly
`glDeleteVertexArrays(1, &VAO)`, `glDeleteBuffers(1, &VBO)`,
`glDeleteProgram(shaderProgram)`, `glfwDestroyWindow`, `glfwTerminate`, in that
order; none of these five kinds of call occurs earlier, so each is made
exactly once; and `main` returns 0. -/
theorem teardown_after_loop (P : DataModel) (E : Env) (n fuel : Nat)
    (hInit : E.glfwInit ≠ 0) (hWin : E.iMadeThisWindow ≠ 0)
    (hRun : ∀ i, i < n → E.shouldClose i = 0) (hClose : E.shouldClose n ≠ 0)
    (hFuel : n < fuel) :
    (main P E fuel).1
        = (setupCalls P E ++ contextCalls E ++ frames E n)
          ++ [Call.glfwWindowShouldClose E.iMadeThisWindow]
          ++ [Call.glDeleteVertexArrays 1 [E.VAO],
              Call.glDeleteBuffers 1 [E.VBO],
              Call.glDeleteProgram E.shaderProgram,
              Call.glfwDestroyWindow E.iMadeThisWindow,
              Call.glfwTerminate]
    ∧ (setupCalls P E ++ contextCalls E ++ frames E n).countP Call.isRelease = 0
    ∧ (main P E fuel).1.countP Call.isRelease = 5
    ∧ (main P E fuel).2 = some 0 := by
  rw [main_success P E n fuel hInit hWin hRun hClose hFuel]
  refine ⟨?_, ?_, ?_, rfl⟩ <;>
    simp [List.countP_append, countP_frames, setupCalls, hintCalls, compileCalls, attachCalls,
      linkCalls, bufferCalls, windowCall, contextCalls, teardownCalls, frameBody,
      Call.isRelease]

/-- Witness of C5: the close signal is already set at the first query, no
frame is rendered. -/
theorem teardown_after_loop_witness :
    (closingAt 0).glfwInit ≠ 0 ∧ (closingAt 0).iMadeThisWindow ≠ 0
    ∧ (∀ i, i < 0 → (closingAt 0).shouldClose i = 0) ∧ (closingAt 0).shouldClose 0 ≠ 0
    ∧ (main desktop (closingAt 0) 1).1.countP Call.isRelease = 5
    ∧ (main desktop (closingAt 0) 1).2 = some 0 :=
  have h := teardown_after_loop desktop (closingAt 0) 0 1 (by decide) (by decide)
    (by decide) (by decide) (by decide)
  ⟨by decide, by decide, by decide, by decide, h.2.2.1, h.2.2.2⟩

/-- C6: in a run whose setup succeeds and that renders `n` frames, the clears
of the whole trace are exactly `n` calls `glClear(GL_COLOR_BUFFER_BIT)`, a mask
without the depth and the stencil bit, and the draws are exactly `n` calls
`glDrawArrays(GL_TRIANGLES, 0, 3)`; every iteration is the close query followed
by clear colour, clear, use program, bind vertex array, draw, swap, poll, so
it has one clear, then the two binds, then one draw. -/
theorem frame_issues_one_clear_one_draw (P : DataModel) (E : Env) (n fuel : Nat)
    (hInit : E.glfwInit ≠ 0) (hWin : E.iMadeThisWindow ≠ 0)
    (hRun : ∀ i, i < n → E.shouldClose i = 0) (hClose : E.shouldClose n ≠ 0)
    (hFuel : n < fuel) :
    (main P E fuel).1.filter Call.isClear = List.replicate n (Call.glClear GL_COLOR_BUFFER_BIT)
    ∧ (main P E fuel).1.filter Call.isDraw
        = List.replicate n (Call.glDrawArrays GL_TRIANGLES 0 3)
    ∧ (main P E fuel).1.countP Call.isClear = n
    ∧ (main P E fuel).1.countP Call.isDraw = n
    ∧ GL_COLOR_BUFFER_BIT &&& GL_DEPTH_BUFFER_BIT = 0
    ∧ GL_COLOR_BUFFER_BIT &&& GL_STENCIL_BUFFER_BIT = 0
    ∧ (main P E fuel).1
        = setupCalls P E ++ contextCalls E ++ frames E n
          ++ Call.glfwWindowShouldClose E.iMadeThisWindow :: teardownCalls E
    ∧ (∀ k, frames E (k + 1)
        = [Call.glfwWindowShouldClose E.iMadeThisWindow,
           Call.glClearColor (.lit 7 2) (.lit 13 2) (.lit 17 2) (.lit 10 1),
           Call.glClear GL_COLOR_BUFFER_BIT,
           Call.glUseProgram E.shaderProgram,
           Call.glBindVertexArray E.VAO,
           Call.glDrawArrays GL_TRIANGLES 0 3,
           Call.glfwSwapBuffers E.iMadeThisWindow,
           Call.glfwPollEvents] ++ frames E k)
    ∧ vertexRows.length = 3 := by
  rw [main_success P E n fuel hInit hWin hRun hClose hFuel]
  have hc := filter_frames_replicate E Call.isClear (Call.glClear GL_COLOR_BUFFER_BIT) rfl n
  have hd := filter_frames_replicate E Call.isDraw (Call.glDrawArrays GL_TRIANGLES 0 3) rfl n
  refine ⟨?_, ?_, ?_, ?_, by decide, by decide, ?_, fun k => rfl, rfl⟩
  · simp [hc, setupCalls, hintCalls, compileCalls, attachCalls,
      linkCalls, bufferCalls, windowCall, contextCalls, teardownCalls, Call.isClear]
  · simp [hd, setupCalls, hintCalls, compileCalls, attachCalls,
      linkCalls, bufferCalls, windowCall, contextCalls, teardownCalls, Call.isDraw]
  · simp [List.countP_append, countP_frames, setupCalls, hintCalls, compileCalls, attachCalls,
      linkCalls, bufferCalls, windowCall, contextCalls, teardownCalls, frameBody,
      Call.isClear]
  · simp [List.countP_append, countP_frames, setupCalls, hintCalls, compileCalls, attachCalls,
      linkCalls, bufferCalls, windowCall, contextCalls, teardownCalls, frameBody,
      Call.isDraw]
  · simp

/-- Witness of C6: a run of three frames. -/
theorem frame_issues_one_clear_one_draw_witness :
    (closingAt 3).glfwInit ≠ 0 ∧ (closingAt 3).iMadeThisWindow ≠ 0
    ∧ (∀ i, i < 3 → (closingAt 3).shouldClose i = 0) ∧ (closingAt 3).shouldClose 3 ≠ 0
    ∧ (main desktop (closingAt 3) 4).1.filter Call.isClear
        = [Call.glClear 0x4000, Call.glClear 0x4000, Call.glClear 0x4000]
    ∧ (main desktop (closingAt 3) 4).1.countP Call.isDraw = 3 :=
  have h := frame_issues_one_clear_one_draw desktop (closingAt 3) 3 4 (by decide) (by decide)
    (by decide) (by decide) (by decide)
  ⟨by decide, by decide, by decide, by decide, h.1, h.2.2.2.1⟩

/-- C7: in every run in which `glfwInit` succeeds, with a 4-byte `GLfloat`,
the trace has exactly one `glBufferData` call; it uploads the 9-element array
`vertices` to `GL_ARRAY_BUFFER` with usage `GL_STATIC_DRAW`, and its byte length
`sizeof(vertices)` is 3 × 3 × `sizeof(GLfloat)` = 36. -/
theorem vertex_upload_length (P : DataModel) (E : Env) (fuel : Nat)
    (hInit : E.glfwInit ≠ 0) (hFloat : P.sizeofGLfloat = 4) :
    (main P E fuel).1.filter Call.isBufferData
        = [Call.glBufferData GL_ARRAY_BUFFER (3 * 3 * P.sizeofGLfloat) vertices GL_STATIC_DRAW]
    ∧ (main P E fuel).1.countP Call.isBufferData = 1
    ∧ vertices.length = 9
    ∧ 3 * 3 * P.sizeofGLfloat = 36 := by
  have hf : ∀ m, (frames E m).filter Call.isBufferData = [] :=
    filter_frames_nil E Call.isBufferData rfl rfl
  have hlen : vertices.length = 3 * 3 := rfl
  have key : (main P E fuel).1.filter Call.isBufferData
      = [Call.glBufferData GL_ARRAY_BUFFER (3 * 3 * P.sizeofGLfloat) vertices GL_STATIC_DRAW] := by
    rcases main_cases P E fuel hInit with h | ⟨m, h⟩ | ⟨m, h⟩ <;>
      simp [h, hf, hlen, setupCalls, hintCalls, compileCalls, attachCalls,
        linkCalls, bufferCalls, windowCall, contextCalls, teardownCalls, Call.isBufferData]
  refine ⟨key, ?_, rfl, by omega⟩
  rw [List.countP_eq_length_filter, key]
  rfl

/-- Witness of C7: a run of one frame on the desktop data model. -/
theorem vertex_upload_length_witness :
    (closingAt 1).glfwInit ≠ 0 ∧ desktop.sizeofGLfloat = 4
    ∧ (main desktop (closingAt 1) 2).1.filter Call.isBufferData
        = [Call.glBufferData GL_ARRAY_BUFFER (3 * 3 * desktop.sizeofGLfloat) vertices
            GL_STATIC_DRAW]
    ∧ 3 * 3 * desktop.sizeofGLfloat = 36 :=
  have h := vertex_upload_length desktop (closingAt 1) 2 (by decide) rfl
  ⟨by decide, rfl, h.1, h.2.2.2⟩

/-- C8: in every run in which `glfwInit` succeeds, on a target with 4-byte
`int` and 4-byte `GLfloat`, the trace has exactly one `glVertexAttribPointer`
call: slot 0, 3 components, type `GL_FLOAT`, normalised `GL_FALSE`, offset 0,
and stride `sizeof(GL_FLOAT)*3`, the size of the `int` constant times 3; this
stride is 12 = 3 × `sizeof(GLfloat)`, and 3 strides are the uploaded length. -/
theorem vertex_layout_stride (P : DataModel) (E : Env) (fuel : Nat)
    (hInit : E.glfwInit ≠ 0) (hInt : P.sizeofInt = 4) (hFloat : P.sizeofGLfloat = 4) :
    (main P E fuel).1.filter Call.isVertexAttribPointer
        = [Call.glVertexAttribPointer 0 3 GL_FLOAT GL_FALSE (P.sizeofInt * 3) 0]
    ∧ P.sizeofInt * 3 = 3 * P.sizeofGLfloat
    ∧ P.sizeofInt * 3 = 12
    ∧ (main P E fuel).1.filter Call.isBufferData
        = [Call.glBufferData GL_ARRAY_BUFFER (P.sizeofInt * 3 * 3) vertices GL_STATIC_DRAW] := by
  have hf : ∀ m, (frames E m).filter Call.isVertexAttribPointer = [] :=
    filter_frames_nil E Call.isVertexAttribPointer rfl rfl
  have hg : ∀ m, (frames E m).filter Call.isBufferData = [] :=
    filter_frames_nil E Call.isBufferData rfl rfl
  have hlen : vertices.length = 9 := rfl
  refine ⟨?_, by omega, by omega, ?_⟩
  · rcases main_cases P E fuel hInit with h | ⟨m, h⟩ | ⟨m, h⟩ <;>
      simp [h, hf, setupCalls, hintCalls, compileCalls, attachCalls,
        linkCalls, bufferCalls, windowCall, contextCalls, teardownCalls,
        Call.isVertexAttribPointer]
  · rcases main_cases P E fuel hInit with h | ⟨m, h⟩ | ⟨m, h⟩ <;>
      simp [h, hg, hlen, hInt, hFloat, setupCalls, hintCalls, compileCalls, attachCalls,
        linkCalls, bufferCalls, windowCall, contextCalls, teardownCalls, Call.isBufferData]

/-- Witness of C8: a run of one frame on the desktop data model. -/
theorem vertex_layout_stride_witness :
    (closingAt 1).glfwInit ≠ 0 ∧ desktop.sizeofInt = 4 ∧ desktop.sizeofGLfloat = 4
    ∧ (main desktop (closingAt 1) 2).1.filter Call.isVertexAttribPointer
        = [Call.glVertexAttribPointer 0 3 GL_FLOAT GL_FALSE (desktop.sizeofInt * 3) 0]
    ∧ desktop.sizeofInt * 3 = 12 :=
  have h := vertex_layout_stride desktop (closingAt 1) 2 (by decide) rfl rfl
  ⟨by decide, rfl, rfl, h.1, h.2.2.1⟩

/-- C9: over the real numbers, with the real square root, the three vertices of
`vertices` are (-0.5, -0.5·√3/3, 0), (0.5, -0.5·√3/3, 0), (0, 0.5·√3/3, 0),
and every one of the nine coordinates lies in [-1, 1]. -/
theorem vertex_coordinates_in_unit_range :
    vertexRows.map (fun r =>
        (r.1.eval Real.sqrt, r.2.1.eval Real.sqrt, r.2.2.eval Real.sqrt))
      = [(-0.5, -0.5 * Real.sqrt 3 / 3, 0),
         (0.5, -0.5 * Real.sqrt 3 / 3, 0),
         (0, 0.5 * Real.sqrt 3 / 3, 0)]
    ∧ ∀ v ∈ vertices, -1 ≤ v.eval Real.sqrt ∧ v.eval Real.sqrt ≤ 1 := by
  have h0 : (0 : ℝ) ≤ Real.sqrt 3 := Real.sqrt_nonneg 3
  have h2 : Real.sqrt 3 ≤ 2 := by
    rw [Real.sqrt_le_left (by norm_num)]
    norm_num
  constructor
  · simp only [vertexRows, vertices, List.getD, List.get?, Option.getD, List.map, FExpr.eval]
    norm_num
  · intro v hv
    simp only [vertices, List.mem_cons, List.mem_singleton, List.not_mem_nil, or_false] at hv
    rcases hv with rfl | rfl | rfl | rfl | rfl | rfl | rfl | rfl | rfl <;>
      simp only [FExpr.eval] <;> norm_num <;> constructor <;> linarith

/-- C10: in every run in which `glfwInit` succeeds, the trace is `pre`, then
`glLinkProgram(shaderProgram)`, `glDeleteShader(fragmentShader)`,
`glDeleteShader(vertexShader)`, then `post`, where the program calls of `pre`
are the single `glCreateProgram` and the attachment of both shaders, `pre` has
no shader deletion and no vertex-array or buffer call, `post` has no call on a
shader at all, no program creation and no link, every `glUseProgram` of `post`
is on `shaderProgram`, and `glDeleteProgram` either does not occur or occurs
once, followed only by `glfwDestroyWindow` and `glfwTerminate`. -/
theorem shader_handles_released_after_link (P : DataModel) (E : Env) (fuel : Nat)
    (hInit : E.glfwInit ≠ 0) :
    ∃ pre post,
      (main P E fuel).1
          = pre ++ [Call.glLinkProgram E.shaderProgram,
                    Call.glDeleteShader E.fragmentShader,
                    Call.glDeleteShader E.vertexShader] ++ post
      ∧ pre.filter Call.isProgramCall
          = [Call.glCreateProgram,
             Call.glAttachShader E.shaderProgram E.vertexShader,
             Call.glAttachShader E.shaderProgram E.fragmentShader]
      ∧ pre.countP Call.isDeleteShader = 0
      ∧ pre.countP Call.isBufferCall = 0
      ∧ post.countP Call.isShaderCall = 0
      ∧ post.countP Call.isCreateProgram = 0
      ∧ post.countP Call.isLinkProgram = 0
      ∧ (∃ m, post.filter Call.isUseProgram
          = List.replicate m (Call.glUseProgram E.shaderProgram))
      ∧ (post.countP Call.isDeleteProgram = 0 ∨
          ∃ mid, post = mid ++ [Call.glDeleteProgram E.shaderProgram,
                                Call.glfwDestroyWindow E.iMadeThisWindow,
                                Call.glfwTerminate]
            ∧ mid.countP Call.isProgramCall = mid.countP Call.isUseProgram) := by
  have hu := filter_frames_replicate E Call.isUseProgram (Call.glUseProgram E.shaderProgram) rfl
  rcases main_cases P E fuel hInit with h | ⟨m, h⟩ | ⟨m, h⟩
  · refine ⟨Call.glfwInit :: hintCalls ++ compileCalls E ++ attachCalls E,
      bufferCalls P E ++ [windowCall]
        ++ [Call.coutLine "Failed to create GLFW window", Call.glfwTerminate],
      ?_, ?_, ?_, ?_, ?_, ?_, ?_, ⟨0, ?_⟩, Or.inl ?_⟩ <;>
    simp [h, List.countP_append, setupCalls, hintCalls, compileCalls, attachCalls,
      linkCalls, bufferCalls, windowCall, Call.isProgramCall, Call.isDeleteShader,
      Call.isBufferCall, Call.isShaderCall, Call.isCreateProgram, Call.isLinkProgram,
      Call.isUseProgram, Call.isDeleteProgram]
  · refine ⟨Call.glfwInit :: hintCalls ++ compileCalls E ++ attachCalls E,
      bufferCalls P E ++ [windowCall] ++ contextCalls E ++ frames E m,
      ?_, ?_, ?_, ?_, ?_, ?_, ?_, ⟨m, ?_⟩, Or.inl ?_⟩ <;>
    simp [h, hu, List.countP_append, countP_frames, frameBody, setupCalls, hintCalls,
      compileCalls, attachCalls, contextCalls,
      linkCalls, bufferCalls, windowCall, Call.isProgramCall, Call.isDeleteShader,
      Call.isBufferCall, Call.isShaderCall, Call.isCreateProgram, Call.isLinkProgram,
      Call.isUseProgram, Call.isDeleteProgram]
  · refine ⟨Call.glfwInit :: hintCalls ++ compileCalls E ++ attachCalls E,
      bufferCalls P E ++ [windowCall] ++ contextCalls E ++ frames E m
        ++ Call.glfwWindowShouldClose E.iMadeThisWindow :: teardownCalls E,
      ?_, ?_, ?_, ?_, ?_, ?_, ?_, ⟨m, ?_⟩,
      Or.inr ⟨bufferCalls P E ++ [windowCall] ++ contextCalls E ++ frames E m
        ++ [Call.glfwWindowShouldClose E.iMadeThisWindow,
            Call.glDeleteVertexArrays 1 [E.VAO], Call.glDeleteBuffers 1 [E.VBO]], ?_, ?_⟩⟩ <;>
    simp [h, hu, List.countP_append, countP_frames, frameBody, setupCalls, hintCalls,
      compileCalls, attachCalls, contextCalls, teardownCalls,
      linkCalls, bufferCalls, windowCall, Call.isProgramCall, Call.isDeleteShader,
      Call.isBufferCall, Call.isShaderCall, Call.isCreateProgram, Call.isLinkProgram,
      Call.isUseProgram, Call.isDeleteProgram]

/-- Witness of C10: a run of one frame. -/
theorem shader_handles_released_after_link_witness :
    (closingAt 1).glfwInit ≠ 0
    ∧ ∃ pre post,
        (main desktop (closingAt 1) 2).1
          = pre ++ [Call.glLinkProgram 3, Call.glDeleteShader 2, Call.glDeleteShader 1] ++ post
        ∧ post.countP Call.isShaderCall = 0 := by
  obtain ⟨pre, post, h1, _, _, _, h5, _⟩ :=
    shader_handles_released_after_link desktop (closingAt 1) 2 (by decide)
  exact ⟨by decide, pre, post, h1, h5⟩

end OpenGLIntro
